import Mathlib

/-!
Verification of the class-registration layer of PHP-CPP (`include/classbase.h`).

The header declares the `ClassBase` aggregate: its protected constructor, the
inline copy and move constructors, the `method`/`property` declaration API, the
`entries()` table lowering and `initialize()`.  The constructors are defined
inline in the header and are embedded here field by field.  The bodies of
`method`, `property`, `entries` and `initialize` live in `classbase.cpp`, which
is not part of the sources at hand; those operations are modelled from the
specification and are marked as such in their doc comments.

Raw engine pointers (`zend_class_entry *`, `zend_function_entry *`, the
reflection `char *_comment`) are modelled as `Option` values: `none` is the
C++ `nullptr`.  `std::move` of a `std::string` or `std::list` leaves the
moved-from object in a valid but unspecified state, in practice emptied by
the mainstream standard libraries; the model empties it.
-/

namespace Php

/-- Opaque native base-object type (external collaborator, out of scope). -/
structure Base

/-- Opaque marshalled value type (external collaborator, out of scope). -/
structure Value

/-- Opaque call-parameters type (external collaborator, out of scope). -/
structure Parameters

/-- Opaque argument-description element (external collaborator, out of scope). -/
structure Argument

/-- The `Arguments` collaborator: an ordered argument description; the C++
default argument `{}` is the empty list. -/
abbrev Arguments := List Argument

/-- Modelled from the spec: the `ClassType` enumeration of the class kind
(its defining header is not among the sources); the spec lists the kinds
Regular, Abstract, Final and Interface. -/
inductive ClassType where
  | Regular
  | Abstract
  | Final
  | Interface
deriving DecidableEq

/-- The four callback shapes of classbase.h lines 25-28: member-function
pointers on `Base`, tagged by signature.
`callback_0 : void (Base::*)()`, `callback_1 : void (Base::*)(Parameters &)`,
`callback_2 : Value (Base::*)()`, `callback_3 : Value (Base::*)(Parameters &)`. -/
inductive method_callback where
  | callback_0 : (Base → Unit) → method_callback
  | callback_1 : (Base → Parameters → Unit) → method_callback
  | callback_2 : (Base → Value) → method_callback
  | callback_3 : (Base → Parameters → Value) → method_callback

/-- The tag (shape) of a method callback: which of the four signatures it has. -/
inductive CallbackShape where
  | shape_0
  | shape_1
  | shape_2
  | shape_3
deriving DecidableEq, Fintype

/-- The shape of a callback is determined by its constructor tag alone. -/
def method_callback.shape : method_callback → CallbackShape
  | .callback_0 _ => .shape_0
  | .callback_1 _ => .shape_1
  | .callback_2 _ => .shape_2
  | .callback_3 _ => .shape_3

/-- The tagged default-value variant of a member (property) descriptor:
absent/null, signed 16/32/64-bit integer, boolean, single character, string,
or double.  The double payload is carried opaquely and never computed with. -/
inductive DefaultValue where
  | nullVal
  | s16 (v : Int)
  | s32 (v : Int)
  | s64 (v : Int)
  | boolean (b : Bool)
  | character (c : Char)
  | strVal (s : String)
  | dblVal (d : Float)

/-- A method descriptor: name, optional callback (absent for an abstract
method), flags and argument description.  Immutable after creation. -/
structure Method where
  name : String
  callback : Option method_callback
  flags : Int
  args : Arguments

/-- A member (property) descriptor: name, tagged default value and flags.
Immutable after creation. -/
structure Member where
  name : String
  value : DefaultValue
  flags : Int

/-- One row of the lowered native method table (`zend_function_entry`):
method name, the trampoline selected by the callback's tag (absent for an
abstract method), engine flags and the lowered argument specification. -/
structure FunctionEntry where
  fname : String
  trampoline : Option CallbackShape
  fflags : Int
  fargs : Arguments

/-- The `ClassBase` aggregate, one field per data member of classbase.h lines
162-205: class name, reflection comment pointer, class type, engine
class-entry pointer, cached method-table pointer, and the ordered method and
member collections.  Pointer members are `Option`s (`none` = `nullptr`). -/
structure ClassBase where
  _name : String
  _comment : Option String
  _type : ClassType
  _entry : Option Nat
  _entries : Option (List FunctionEntry)
  _methods : List Method
  _members : List Member

/-- The protected constructor (classbase.h line 46): stores the class name and
type; every pointer member keeps its default member initializer `nullptr` and
the collections start empty.  The C++ default for `type` is
`ClassType::Regular`. -/
def ClassBase.mkProtected (classname : String) (type : ClassType) : ClassBase :=
  { _name := classname
    _comment := none
    _type := type
    _entry := none
    _entries := none
    _methods := []
    _members := [] }

/-- The copy constructor (classbase.h lines 56-58): copies `_name`, `_type`,
`_methods` and `_members`; `_entry` is set to `nullptr` in the initializer
list; `_comment` and `_entries` are not mentioned there and take their default
member initializers `nullptr`. -/
def ClassBase.copyCtor (that : ClassBase) : ClassBase :=
  { _name := that._name
    _comment := none
    _type := that._type
    _entry := none
    _entries := none
    _methods := that._methods
    _members := that._members }

/-- The move constructor (classbase.h lines 64-73): moves `_name`, `_methods`
and `_members` into the destination (the moved-from `std::string` and
`std::list`s are left valid-but-unspecified, in practice empty — modelled as
emptied), copies `_entry`, and then sets the source's `_entry` to `nullptr`.
The destination's `_comment` and `_entries` take their default member
initializers `nullptr`; the source's `_comment` and `_entries` are untouched.
Returns the pair (destination, moved-from source). -/
def ClassBase.moveCtor (that : ClassBase) : ClassBase × ClassBase :=
  ({ _name := that._name
     _comment := none
     _type := that._type
     _entry := that._entry
     _entries := none
     _methods := that._methods
     _members := that._members },
   { _name := ""
     _comment := that._comment
     _type := that._type
     _entry := none
     _entries := that._entries
     _methods := []
     _members := [] })

/-- The default `flags` argument of every `method` overload (classbase.h lines
115-118 and 127): `int flags=0`. -/
def method_default_flags : Int := 0

/-- Modelled from the spec: the `Php::Public` visibility flag (the modifiers
header defining it is not among the sources); an engine visibility bit,
distinct from 0. -/
def Public : Int := 256

/-- The default `flags` argument of every `property` overload (classbase.h
lines 142-150): `int flags = Php::Public`. -/
def property_default_flags : Int := Public

/-- Modelled from the spec: the body of the `method` overloads
(`classbase.cpp` is not among the sources) appends a method descriptor
recording name, callback, flags and argument description, in declaration
order (spec §4.1).  Overload for shape 0, classbase.h line 115. -/
def ClassBase.method0 (c : ClassBase) (nm : String) (cb : Base → Unit)
    (fl : Int) (a : Arguments) : ClassBase :=
  { c with _methods := c._methods ++
      [{ name := nm, callback := some (method_callback.callback_0 cb), flags := fl, args := a }] }

/-- Modelled from the spec: `method` overload for shape 1, classbase.h
line 116; appends a method descriptor (spec §4.1). -/
def ClassBase.method1 (c : ClassBase) (nm : String) (cb : Base → Parameters → Unit)
    (fl : Int) (a : Arguments) : ClassBase :=
  { c with _methods := c._methods ++
      [{ name := nm, callback := some (method_callback.callback_1 cb), flags := fl, args := a }] }

/-- Modelled from the spec: `method` overload for shape 2, classbase.h
line 117; appends a method descriptor (spec §4.1). -/
def ClassBase.method2 (c : ClassBase) (nm : String) (cb : Base → Value)
    (fl : Int) (a : Arguments) : ClassBase :=
  { c with _methods := c._methods ++
      [{ name := nm, callback := some (method_callback.callback_2 cb), flags := fl, args := a }] }

/-- Modelled from the spec: `method` overload for shape 3, classbase.h
line 118; appends a method descriptor (spec §4.1). -/
def ClassBase.method3 (c : ClassBase) (nm : String) (cb : Base → Parameters → Value)
    (fl : Int) (a : Arguments) : ClassBase :=
  { c with _methods := c._methods ++
      [{ name := nm, callback := some (method_callback.callback_3 cb), flags := fl, args := a }] }

/-- Modelled from the spec: the abstract `method` overload, classbase.h
line 127 — name, flags and argument description only, no callback; appends a
method descriptor whose callback is absent (spec §4.1). -/
def ClassBase.methodAbstract (c : ClassBase) (nm : String)
    (fl : Int) (a : Arguments) : ClassBase :=
  { c with _methods := c._methods ++
      [{ name := nm, callback := none, flags := fl, args := a }] }

/-- Modelled from the spec: the common body of the `property` overloads
appends a member descriptor recording name, tagged default value and flags
(spec §4.1). -/
def ClassBase.addProperty (c : ClassBase) (nm : String) (v : DefaultValue)
    (fl : Int) : ClassBase :=
  { c with _members := c._members ++ [{ name := nm, value := v, flags := fl }] }

/-- `property(name, std::nullptr_t, flags)`, classbase.h line 142. -/
def ClassBase.property_nullptr (c : ClassBase) (nm : String) (fl : Int) : ClassBase :=
  c.addProperty nm DefaultValue.nullVal fl

/-- `property(name, int16_t, flags)`, classbase.h line 143. -/
def ClassBase.property_int16 (c : ClassBase) (nm : String) (v : Int) (fl : Int) : ClassBase :=
  c.addProperty nm (DefaultValue.s16 v) fl

/-- `property(name, int32_t, flags)`, classbase.h line 144. -/
def ClassBase.property_int32 (c : ClassBase) (nm : String) (v : Int) (fl : Int) : ClassBase :=
  c.addProperty nm (DefaultValue.s32 v) fl

/-- `property(name, int64_t, flags)`, classbase.h line 145. -/
def ClassBase.property_int64 (c : ClassBase) (nm : String) (v : Int) (fl : Int) : ClassBase :=
  c.addProperty nm (DefaultValue.s64 v) fl

/-- `property(name, bool, flags)`, classbase.h line 146. -/
def ClassBase.property_bool (c : ClassBase) (nm : String) (v : Bool) (fl : Int) : ClassBase :=
  c.addProperty nm (DefaultValue.boolean v) fl

/-- `property(name, char, flags)`, classbase.h line 147. -/
def ClassBase.property_char (c : ClassBase) (nm : String) (v : Char) (fl : Int) : ClassBase :=
  c.addProperty nm (DefaultValue.character v) fl

/-- `property(name, const std::string &, flags)`, classbase.h line 148. -/
def ClassBase.property_string (c : ClassBase) (nm : String) (v : String) (fl : Int) : ClassBase :=
  c.addProperty nm (DefaultValue.strVal v) fl

/-- `property(name, const char *, flags)`, classbase.h line 149: a C string
also lands in the string variant. -/
def ClassBase.property_cstring (c : ClassBase) (nm : String) (v : String) (fl : Int) : ClassBase :=
  c.addProperty nm (DefaultValue.strVal v) fl

/-- `property(name, double, flags)`, classbase.h line 150. -/
def ClassBase.property_double (c : ClassBase) (nm : String) (v : Float) (fl : Int) : ClassBase :=
  c.addProperty nm (DefaultValue.dblVal v) fl

/-- The sentinel (all-null) row terminating the lowered method table. -/
def sentinelEntry : FunctionEntry :=
  { fname := "", trampoline := none, fflags := 0, fargs := [] }

/-- Modelled from the spec (§4.2): lowering of one method descriptor into a
table row — the trampoline is selected deterministically from the callback's
variant tag (absent for an abstract method), never from the argument count. -/
def lowerMethod (m : Method) : FunctionEntry :=
  { fname := m.name
    trampoline := m.callback.map method_callback.shape
    fflags := m.flags
    fargs := m.args }

/-- Modelled from the spec: `ClassBase::entries` (its body is in
`classbase.cpp`, not among the sources).  Per spec §4.2 it is lazy and
idempotent: if `_entries` is already cached it is returned unchanged,
otherwise the table is built from `_methods` in declaration order, terminated
by the sentinel row, cached in `_entries` and returned.  Returns the pair
(state after the call, returned table). -/
def ClassBase.entriesCall (c : ClassBase) : ClassBase × List FunctionEntry :=
  match c._entries with
  | some t => (c, t)
  | none =>
    let t := (c._methods.map lowerMethod) ++ [sentinelEntry]
    ({ c with _entries := some t }, t)

/-- The namespace-qualified class name composed by `initialize` (spec §4.3):
an empty namespace yields the unqualified name. -/
def qualifiedName (ns : String) (nm : String) : String :=
  if ns = "" then nm else ns ++ "\\" ++ nm

/-- Modelled from the spec (§4.3): `ClassBase::initialize` (its body is in
`classbase.cpp`, not among the sources) materializes the descriptor table via
`entries`, asks the host engine to register the class (the engine, an
external collaborator, returns the opaque handle `handle`) and stores the
returned handle in `_entry`.  Returns the pair (state after the call, the
qualified name handed to the engine's registration request). -/
def ClassBase.initClass (c : ClassBase) (ns : String) (handle : Nat) : ClassBase × String :=
  ({ c.entriesCall.1 with _entry := some handle }, qualifiedName ns c._name)

/-- The parameter types of the nine `property` overloads as declared in
classbase.h lines 142-150. -/
inductive PropertyParamType where
  | nullptr_t
  | int16_t
  | int32_t
  | int64_t
  | bool_t
  | char_t
  | std_string
  | c_string
  | double_t
deriving DecidableEq

/-- The nine `property` overloads of classbase.h lines 142-150, by parameter
type, in declaration order. -/
def property_overload_params : List PropertyParamType :=
  [.nullptr_t, .int16_t, .int32_t, .int64_t, .bool_t, .char_t, .std_string, .c_string, .double_t]

/-- The eight default-value variants of the spec's member-descriptor model:
absent/null, signed-16, signed-32, signed-64, boolean, single-character,
string, double. -/
inductive DefaultValueVariant where
  | absent
  | s16
  | s32
  | s64
  | boolean
  | character
  | string
  | floating
deriving DecidableEq

/-- Which default-value variant each `property` overload's parameter type
feeds: both `const std::string &` and `const char *` feed the string
variant. -/
def variantOfParam : PropertyParamType → DefaultValueVariant
  | .nullptr_t => .absent
  | .int16_t => .s16
  | .int32_t => .s32
  | .int64_t => .s64
  | .bool_t => .boolean
  | .char_t => .character
  | .std_string => .string
  | .c_string => .string
  | .double_t => .floating

/-- The callback-taking `method` overloads of classbase.h lines 115-118, by
the shape of their callback parameter, in declaration order. -/
def method_overload_shapes : List CallbackShape :=
  [.shape_0, .shape_1, .shape_2, .shape_3]

/-- Access specifier of a C++ constructor. -/
inductive Access where
  | acc_public
  | acc_protected
  | acc_private
deriving DecidableEq

/-- A virtual member function of a C++ class declaration: its name and
whether it is pure (`= 0`). -/
structure VirtualFn where
  vname : String
  pureVirtual : Bool
deriving DecidableEq

/-- Declaration-level shape of a C++ class: constructor access and virtual
member functions. -/
structure CppClassDecl where
  ctorAccess : Access
  virtuals : List VirtualFn

/-- The declaration-level facts of classbase.h: the constructor is protected
(line 46), the destructor is virtual but not pure (line 78), and
`construct` is a pure virtual function (`virtual Base* construct() = 0`,
line 84) — ClassBase itself supplies no body for it and so never creates a
native instance. -/
def ClassBaseDecl : CppClassDecl :=
  { ctorAccess := Access.acc_protected
    virtuals :=
      [{ vname := "~ClassBase", pureVirtual := false },
       { vname := "construct", pureVirtual := true }] }

/-- A C++ class is abstract when it has a pure virtual member function. -/
def CppClassDecl.isAbstract (d : CppClassDecl) : Bool :=
  d.virtuals.any (fun f => f.pureVirtual)

/-- A C++ class can be instantiated directly only when its constructor is
public and it is not abstract. -/
def CppClassDecl.directlyInstantiable (d : CppClassDecl) : Bool :=
  decide (d.ctorAccess = Access.acc_public) && !(d.isAbstract)

/-- A concrete subclass, described by the set of inherited virtual functions
it overrides with a body. -/
structure SubclassDecl where
  overridden : List String

/-- A subclass declaration is concrete (instantiable) precisely when it
overrides every pure virtual function of its base. -/
def concreteSubclass (d : CppClassDecl) (s : SubclassDecl) : Prop :=
  ∀ f ∈ d.virtuals, f.pureVirtual = true → f.vname ∈ s.overridden

end Php

/-! ## Helper lemmas -/

/-- Appending one element to the back of a list makes it the last element. -/
theorem lastOfConcat {α : Type} (l : List α) (x : α) : (l ++ [x]).getLast? = some x :=
  List.getLast?_concat l

/-- `entriesCall` never touches the class name. -/
theorem entriesCall_preserves_name (c : Php.ClassBase) :
    (c.entriesCall.1)._name = c._name := by
  unfold Php.ClassBase.entriesCall
  split <;> rfl

/-! ## Claims -/

/-- C1: the move constructor transfers the engine class-entry handle — the
destination holds exactly the handle the source held before the move, and the
moved-from source's handle is set to empty (`nullptr`). -/
theorem C1_move_transfers_entry (c : Php.ClassBase) :
    (c.moveCtor.1)._entry = c._entry ∧ (c.moveCtor.2)._entry = none :=
  ⟨rfl, rfl⟩

/-- C2: copy-constructing a ClassBase duplicates its name, type, method
collection and member collection, and the copy's engine handle and cached
descriptor table are both absent (`nullptr`), whatever state the original was
in. -/
theorem C2_copy_duplicates_declarations (c : Php.ClassBase) :
    (c.copyCtor)._name = c._name ∧
    (c.copyCtor)._type = c._type ∧
    (c.copyCtor)._methods = c._methods ∧
    (c.copyCtor)._members = c._members ∧
    (c.copyCtor)._entry = none ∧
    (c.copyCtor)._entries = none :=
  ⟨rfl, rfl, rfl, rfl, rfl, rfl⟩

/-- C10: the move constructor transfers only the class-entry handle among the
per-registration pointers: the moved-from source keeps its cached descriptor
table and its reflection comment (neither transferred nor cleared), while the
destination starts with no cached table and no comment. -/
theorem C10_move_frame (c : Php.ClassBase) :
    (c.moveCtor.1)._entry = c._entry ∧
    (c.moveCtor.2)._entries = c._entries ∧
    (c.moveCtor.2)._comment = c._comment ∧
    (c.moveCtor.1)._entries = none ∧
    (c.moveCtor.1)._comment = none :=
  ⟨rfl, rfl, rfl, rfl, rfl⟩

/-- C6: the descriptor table is absent on a freshly constructed ClassBase,
the first `entries()` call caches the table it returns, and `entries()` is
idempotent — calling it again on the resulting state returns the identical
state and cached table without rebuilding. -/
theorem C6_entries_idempotent (c : Php.ClassBase) (nm : String) (ty : Php.ClassType) :
    (Php.ClassBase.mkProtected nm ty)._entries = none ∧
    (c.entriesCall.1)._entries = some c.entriesCall.2 ∧
    (c.entriesCall.1).entriesCall = c.entriesCall := by
  refine ⟨rfl, ?_, ?_⟩ <;>
    cases h : c._entries <;>
      simp [Php.ClassBase.entriesCall, h]

/-- C7: the declaration API includes a `method` overload taking only a name,
flags and an argument specification — no callback — and it appends a method
descriptor whose callback is absent. -/
theorem C7_abstract_method_overload (c : Php.ClassBase) (nm : String)
    (fl : Int) (a : Php.Arguments) :
    (c.methodAbstract nm fl a)._methods =
      c._methods ++ [{ name := nm, callback := none, flags := fl, args := a }] ∧
    (c.methodAbstract nm fl a)._methods.getLast? =
      some { name := nm, callback := none, flags := fl, args := a } :=
  ⟨rfl, lastOfConcat c._methods _⟩

/-- C3 counterexample: the layer does not make the name non-empty — the
protected constructor accepts the empty class name and stores it unchanged —
and a moved-from ClassBase does not keep its original name: moving from a
ClassBase named "Counter" leaves the source's name empty (the move
constructor's `std::move(that._name)` gutts the source string), not
"Counter". -/
theorem C3_counterexample :
    (Php.ClassBase.mkProtected "" Php.ClassType.Regular)._name = "" ∧
    ((Php.ClassBase.mkProtected "Counter" Php.ClassType.Regular).moveCtor.2)._name ≠ "Counter" := by
  refine ⟨rfl, ?_⟩
  decide

/-- C3 (amended): when a ClassBase holds a non-empty name, the name stays
that non-empty name in each object produced by this layer's operations —
the copy, the move destination, every `method`/`property` declaration call,
table materialization and registration all preserve it — but the moved-from
source does not keep its name: the move empties it.  Non-emptiness is a
caller obligation at construction, not enforced by the layer. -/
theorem C3_amended_name_stability (c : Php.ClassBase) (nm ns : String)
    (fl : Int) (a : Php.Arguments) (hdl : Nat)
    (f0 : Php.Base → Unit) (f1 : Php.Base → Php.Parameters → Unit)
    (f2 : Php.Base → Php.Value) (f3 : Php.Base → Php.Parameters → Php.Value)
    (v : Php.DefaultValue)
    (h : c._name ≠ "") :
    (c.copyCtor)._name = c._name ∧
    (c.copyCtor)._name ≠ "" ∧
    (c.moveCtor.1)._name = c._name ∧
    (c.moveCtor.1)._name ≠ "" ∧
    (c.moveCtor.2)._name = "" ∧
    (c.method0 nm f0 fl a)._name = c._name ∧
    (c.method1 nm f1 fl a)._name = c._name ∧
    (c.method2 nm f2 fl a)._name = c._name ∧
    (c.method3 nm f3 fl a)._name = c._name ∧
    (c.methodAbstract nm fl a)._name = c._name ∧
    (c.addProperty nm v fl)._name = c._name ∧
    (c.entriesCall.1)._name = c._name ∧
    ((c.initClass ns hdl).1)._name = c._name := by
  refine ⟨rfl, h, rfl, h, rfl, rfl, rfl, rfl, rfl, rfl, rfl, ?_, ?_⟩
  · exact entriesCall_preserves_name c
  · exact entriesCall_preserves_name c

/-- A concrete ClassBase used to witness the amended name-stability claim. -/
def counterClass : Php.ClassBase :=
  Php.ClassBase.mkProtected "Counter" Php.ClassType.Regular

/-- A concrete callback of shape 0 (`void (Base::*)()`). -/
def sampleF0 : Php.Base → Unit := fun _ => ()

/-- A concrete callback of shape 1 (`void (Base::*)(Parameters &)`). -/
def sampleF1 : Php.Base → Php.Parameters → Unit := fun _ _ => ()

/-- A concrete callback of shape 2 (`Value (Base::*)()`). -/
def sampleF2 : Php.Base → Php.Value := fun _ => Php.Value.mk

/-- A concrete callback of shape 3 (`Value (Base::*)(Parameters &)`). -/
def sampleF3 : Php.Base → Php.Parameters → Php.Value := fun _ _ => Php.Value.mk

/-- Witness for the amended C3 claim at the concrete class "Counter". -/
theorem C3_amended_name_stability_witness :
    counterClass._name ≠ "" ∧
    ((counterClass.copyCtor)._name = counterClass._name ∧
     (counterClass.copyCtor)._name ≠ "" ∧
     (counterClass.moveCtor.1)._name = counterClass._name ∧
     (counterClass.moveCtor.1)._name ≠ "" ∧
     (counterClass.moveCtor.2)._name = "" ∧
     (counterClass.method0 "m" sampleF0 0 [])._name = counterClass._name ∧
     (counterClass.method1 "m" sampleF1 0 [])._name = counterClass._name ∧
     (counterClass.method2 "m" sampleF2 0 [])._name = counterClass._name ∧
     (counterClass.method3 "m" sampleF3 0 [])._name = counterClass._name ∧
     (counterClass.methodAbstract "m" 0 [])._name = counterClass._name ∧
     (counterClass.addProperty "p" Php.DefaultValue.nullVal 0)._name = counterClass._name ∧
     (counterClass.entriesCall.1)._name = counterClass._name ∧
     ((counterClass.initClass "App" 7).1)._name = counterClass._name) :=
  ⟨by decide,
   C3_amended_name_stability counterClass "m" "App" 0 [] 7
     sampleF0 sampleF1 sampleF2 sampleF3
     Php.DefaultValue.nullVal (by decide)⟩

/-- C4: a method descriptor's callback can carry exactly the four shapes
(no-args/no-return, args/no-return, no-args/returns-value,
args/returns-value) — every callback value has one of the four tags — and
the declaration API has exactly one callback-taking `method` overload per
shape: the four overloads, in header order, carry pairwise distinct shapes
covering all four, and each overload appends a descriptor bound to the
callback of its own shape. -/
theorem C4_callback_shapes (cb : Php.method_callback) (c : Php.ClassBase)
    (nm : String) (fl : Int) (a : Php.Arguments)
    (f0 : Php.Base → Unit) (f1 : Php.Base → Php.Parameters → Unit)
    (f2 : Php.Base → Php.Value) (f3 : Php.Base → Php.Parameters → Php.Value) :
    (cb.shape = Php.CallbackShape.shape_0 ∨ cb.shape = Php.CallbackShape.shape_1 ∨
     cb.shape = Php.CallbackShape.shape_2 ∨ cb.shape = Php.CallbackShape.shape_3) ∧
    Php.method_overload_shapes.length = 4 ∧
    Php.method_overload_shapes.Nodup ∧
    (∀ s : Php.CallbackShape, s ∈ Php.method_overload_shapes) ∧
    (c.method0 nm f0 fl a)._methods.getLast? =
      some { name := nm, callback := some (Php.method_callback.callback_0 f0), flags := fl, args := a } ∧
    (c.method1 nm f1 fl a)._methods.getLast? =
      some { name := nm, callback := some (Php.method_callback.callback_1 f1), flags := fl, args := a } ∧
    (c.method2 nm f2 fl a)._methods.getLast? =
      some { name := nm, callback := some (Php.method_callback.callback_2 f2), flags := fl, args := a } ∧
    (c.method3 nm f3 fl a)._methods.getLast? =
      some { name := nm, callback := some (Php.method_callback.callback_3 f3), flags := fl, args := a } := by
  refine ⟨?_, rfl, by decide, by decide, ?_, ?_, ?_, ?_⟩
  · cases cb
    · exact Or.inl rfl
    · exact Or.inr (Or.inl rfl)
    · exact Or.inr (Or.inr (Or.inl rfl))
    · exact Or.inr (Or.inr (Or.inr rfl))
  · exact lastOfConcat c._methods _
  · exact lastOfConcat c._methods _
  · exact lastOfConcat c._methods _
  · exact lastOfConcat c._methods _

/-- C5 counterexample: the property-declaration API does not have exactly one
overload per default-value variant — the string variant is fed by two
overloads, `const std::string &` (classbase.h line 148) and `const char *`
(line 149), so its overload count is 2, not 1. -/
theorem C5_counterexample :
    (Php.property_overload_params.countP
      (fun p => Php.variantOfParam p == Php.DefaultValueVariant.string)) = 2 ∧
    ¬ (Php.property_overload_params.countP
      (fun p => Php.variantOfParam p == Php.DefaultValueVariant.string)) = 1 := by
  refine ⟨by decide, by decide⟩

/-- C5 (amended): the nine `property` overloads cover exactly the
default-value variant set {absent/null, signed-16, signed-32, signed-64,
boolean, single-character, string, double} — every overload's parameter type
maps into the set, every variant is fed by at least one overload, and each
variant is fed by exactly one overload except the string variant, fed by two
(`const std::string &` and `const char *`). -/
theorem C5_amended_property_overloads (v : Php.DefaultValueVariant) :
    Php.property_overload_params.length = 9 ∧
    (Php.property_overload_params.countP (fun p => Php.variantOfParam p == v)
      = if v = Php.DefaultValueVariant.string then 2 else 1) := by
  refine ⟨rfl, ?_⟩
  cases v <;> decide

/-- C8: `construct` is a pure virtual function of ClassBase (classbase.h
line 84), so ClassBase is an abstract class — which, with its protected
constructor, makes it impossible to instantiate directly, and ClassBase
itself supplies no instance factory — and every concrete subclass must
override `construct`. -/
theorem C8_construct_pure_virtual (s : Php.SubclassDecl)
    (h : Php.concreteSubclass Php.ClassBaseDecl s) :
    Php.ClassBaseDecl.isAbstract = true ∧
    Php.ClassBaseDecl.directlyInstantiable = false ∧
    "construct" ∈ s.overridden := by
  refine ⟨rfl, rfl, ?_⟩
  have hm : ({ vname := "construct", pureVirtual := true } : Php.VirtualFn)
      ∈ Php.ClassBaseDecl.virtuals := by decide
  exact h _ hm rfl

/-- A concrete subclass declaration overriding exactly `construct`. -/
def counterSubclass : Php.SubclassDecl := { overridden := ["construct"] }

/-- Witness for C8 at the concrete subclass overriding `construct`. -/
theorem C8_construct_pure_virtual_witness :
    Php.concreteSubclass Php.ClassBaseDecl counterSubclass ∧
    (Php.ClassBaseDecl.isAbstract = true ∧
     Php.ClassBaseDecl.directlyInstantiable = false ∧
     "construct" ∈ counterSubclass.overridden) :=
  ⟨by unfold Php.concreteSubclass; decide,
   C8_construct_pure_virtual counterSubclass (by unfold Php.concreteSubclass; decide)⟩

/-- C9: the omitted-flags defaults differ between the two declaration calls:
every `property` overload defaults its flags to `Php::Public`, so a property
declared without an explicit flags argument records a member descriptor with
Public visibility, while every `method` overload defaults its flags to 0, so
a method declared without flags records a descriptor with flags 0. -/
theorem C9_default_flags (c : Php.ClassBase) (nm : String) (a : Php.Arguments)
    (f0 : Php.Base → Unit) (f1 : Php.Base → Php.Parameters → Unit)
    (f2 : Php.Base → Php.Value) (f3 : Php.Base → Php.Parameters → Php.Value)
    (i : Int) (b : Bool) (ch : Char) (st : String) (d : Float) :
    Php.property_default_flags = Php.Public ∧
    Php.method_default_flags = 0 ∧
    (c.property_nullptr nm Php.property_default_flags)._members.getLast? =
      some { name := nm, value := Php.DefaultValue.nullVal, flags := Php.Public } ∧
    (c.property_int16 nm i Php.property_default_flags)._members.getLast? =
      some { name := nm, value := Php.DefaultValue.s16 i, flags := Php.Public } ∧
    (c.property_int32 nm i Php.property_default_flags)._members.getLast? =
      some { name := nm, value := Php.DefaultValue.s32 i, flags := Php.Public } ∧
    (c.property_int64 nm i Php.property_default_flags)._members.getLast? =
      some { name := nm, value := Php.DefaultValue.s64 i, flags := Php.Public } ∧
    (c.property_bool nm b Php.property_default_flags)._members.getLast? =
      some { name := nm, value := Php.DefaultValue.boolean b, flags := Php.Public } ∧
    (c.property_char nm ch Php.property_default_flags)._members.getLast? =
      some { name := nm, value := Php.DefaultValue.character ch, flags := Php.Public } ∧
    (c.property_string nm st Php.property_default_flags)._members.getLast? =
      some { name := nm, value := Php.DefaultValue.strVal st, flags := Php.Public } ∧
    (c.property_cstring nm st Php.property_default_flags)._members.getLast? =
      some { name := nm, value := Php.DefaultValue.strVal st, flags := Php.Public } ∧
    (c.property_double nm d Php.property_default_flags)._members.getLast? =
      some { name := nm, value := Php.DefaultValue.dblVal d, flags := Php.Public } ∧
    (c.method0 nm f0 Php.method_default_flags a)._methods.getLast? =
      some { name := nm, callback := some (Php.method_callback.callback_0 f0), flags := 0, args := a } ∧
    (c.method1 nm f1 Php.method_default_flags a)._methods.getLast? =
      some { name := nm, callback := some (Php.method_callback.callback_1 f1), flags := 0, args := a } ∧
    (c.method2 nm f2 Php.method_default_flags a)._methods.getLast? =
      some { name := nm, callback := some (Php.method_callback.callback_2 f2), flags := 0, args := a } ∧
    (c.method3 nm f3 Php.method_default_flags a)._methods.getLast? =
      some { name := nm, callback := some (Php.method_callback.callback_3 f3), flags := 0, args := a } ∧
    (c.methodAbstract nm Php.method_default_flags a)._methods.getLast? =
      some { name := nm, callback := none, flags := 0, args := a } :=
  ⟨rfl, rfl,
   lastOfConcat c._members _, lastOfConcat c._members _, lastOfConcat c._members _,
   lastOfConcat c._members _, lastOfConcat c._members _, lastOfConcat c._members _,
   lastOfConcat c._members _, lastOfConcat c._members _, lastOfConcat c._members _,
   lastOfConcat c._methods _, lastOfConcat c._methods _, lastOfConcat c._methods _,
   lastOfConcat c._methods _, lastOfConcat c._methods _⟩
